import Mathlib

/-!
Shallow embedding of `main.py` from the support-telegram repository.

The vendor SDK (telethon) is modelled as an oracle: each probe call is a
pure function of the vendor responses it would receive, together with a
trace of the vendor requests and interactive prompts it performs.
Python exceptions are modelled with `Except`; a value `.error e` means the
exception `e` propagates out of the Python function.
-/

namespace SupportTelegram

/-- Python exceptions that the code raises, catches or propagates. -/
inductive PyExc where
  | typeError (msg : String)
  | valueError (msg : String)
  | keyError (key : String)
  | indexError
  | attributeError (msg : String)
  | floodWait (seconds : Nat)
  | userDeactivated
  | userRestricted
  | phoneNumberUnoccupied
  | sessionPasswordNeeded
  | other (msg : String)
  deriving DecidableEq, Repr

/-- Rendering of `str(e)` for an exception, used when the code interpolates
an exception into a message string. -/
def pyStr : PyExc → String
  | .typeError m => m
  | .valueError m => m
  | .keyError k => k
  | .indexError => "list index out of range"
  | .attributeError m => m
  | .floodWait s => "A wait of " ++ toString s ++ " seconds is required"
  | .userDeactivated => "The user has been deleted/deactivated"
  | .userRestricted => "The user is restricted"
  | .phoneNumberUnoccupied => "The phone number is not yet being used"
  | .sessionPasswordNeeded => "Two-steps verification is enabled and a password is required"
  | .other m => m

/-- `types.TypeUserStatus`: the vendor last-seen status of a user. For
`UserStatusOffline` the code formats `was_online` with `strftime`; the
formatted timestamp string is carried directly. -/
inductive UserStatus where
  | online
  | offline (wasOnlineFormatted : String)
  | recently
  | lastWeek
  | lastMonth
  | empty
  deriving DecidableEq, Repr

/-- `get_human_readable_user_status` from `main.py`. -/
def get_human_readable_user_status : UserStatus → String
  | .online => "Currently online"
  | .offline t => t
  | .recently => "Last seen recently"
  | .lastWeek => "Last seen last week"
  | .lastMonth => "Last seen last month"
  | .empty => "Unknown"

/-- A vendor user record, with the fields `main.py` reads. -/
structure UserRec where
  id : Nat
  username : Option String
  usernames : List String
  first_name : Option String
  last_name : Option String
  fake : Bool
  verified : Bool
  premium : Bool
  mutual_contact : Bool
  bot : Bool
  bot_chat_history : Bool
  restricted : Bool
  restriction_reason : List String
  status : UserStatus
  phone : Option String
  deriving DecidableEq, Repr

/-- An entry of the `imported` list of an `ImportContactsRequest` response. -/
structure ImportedContact where
  user_id : Nat
  deriving DecidableEq, Repr

/-- Response to `ImportContactsRequest`: the matched `users` and the
`imported` contacts actually added to the address book. -/
structure ImportResponse where
  users : List UserRec
  imported : List ImportedContact
  deriving DecidableEq, Repr

/-- Response to `DeleteContactsRequest` (`types.Updates`): carries enriched
user records. -/
structure UpdatesResponse where
  users : List UserRec
  deriving DecidableEq, Repr

/-- The result dict built by `get_names` on the single-match path, field by
field from the delete-response user record. -/
structure Profile where
  id : Nat
  username : Option String
  usernames : List String
  first_name : Option String
  last_name : Option String
  fake : Bool
  verified : Bool
  premium : Bool
  mutual_contact : Bool
  bot : Bool
  bot_chat_history : Bool
  restricted : Bool
  restriction_reason : List String
  user_was_online : String
  phone : Option String
  deriving DecidableEq, Repr

/-- Build the `get_names` result dict from a user record (`main.py`
lines 72-90). -/
def mkProfile (u : UserRec) : Profile :=
  { id := u.id
    username := u.username
    usernames := u.usernames
    first_name := u.first_name
    last_name := u.last_name
    fake := u.fake
    verified := u.verified
    premium := u.premium
    mutual_contact := u.mutual_contact
    bot := u.bot
    bot_chat_history := u.bot_chat_history
    restricted := u.restricted
    restriction_reason := u.restriction_reason
    user_was_online := get_human_readable_user_status u.status
    phone := u.phone }

/-- The value returned by `get_names`: a dict that is either an error entry
or the profile fields. -/
inductive LookupResult where
  | err (msg : String)
  | profile (p : Profile)
  deriving DecidableEq, Repr

/-- Vendor requests and interactive prompts performed by the code, in
order. -/
inductive Effect where
  | importContacts (phone first last : String)
  | deleteContacts (ids : List Nat)
  | connect
  | disconnect
  | sendCode (phone : String)
  | signInWithCode
  | signInWithPassword
  | promptCode
  | promptPassword
  | promptPhones
  deriving DecidableEq, Repr

/-- Vendor oracle for one probe call: the outcome of the import request,
and the outcome of a delete request as a function of the ids passed. -/
structure ProbeClient where
  importResult : Except PyExc ImportResponse
  deleteResult : List Nat → Except PyExc UpdatesResponse

/-- Error message for the zero-match branch (`main.py` line 61). -/
def notOnTelegramMsg : String :=
  "No response, the phone number is not on Telegram or has blocked contact adding."

/-- Error message for the multi-match branch (`main.py` lines 94-95). -/
def multipleMatchMsg : String :=
  "This phone number matched multiple Telegram accounts, \n            which is unexpected. Please contact the developer: contact-tech@bellingcat.com"

/-- Error message of the `except TypeError` handler (`main.py` line 102). -/
def typeErrorMsg (m phone : String) : String :=
  "TypeError: " ++ m ++ ". --> The error might have occurred due to the inability to delete the phone_number=\x27" ++ phone ++ "\x27 from the contact list."

/-- `get_names` from `main.py`: import the phone as a contact, classify by
the number of matched users, delete the contact on the single-match path
and build the profile from the delete response. `TypeError` is caught and
recorded in the result; any other exception propagates (`raise`). -/
def get_names (client : ProbeClient) (phone : String) :
    Except PyExc LookupResult × List Effect :=
  let impEff := Effect.importContacts phone "" ""
  match client.importResult with
  | .error (.typeError m) => (.ok (.err (typeErrorMsg m phone)), [impEff])
  | .error e => (.error e, [impEff])
  | .ok contacts =>
    match contacts.users with
    | [] => (.ok (.err notOnTelegramMsg), [impEff])
    | [u] =>
      let delEff := Effect.deleteContacts [u.id]
      match client.deleteResult [u.id] with
      | .error (.typeError m) => (.ok (.err (typeErrorMsg m phone)), [impEff, delEff])
      | .error e => (.error e, [impEff, delEff])
      | .ok upd =>
        match upd.users with
        | [] => (.error .indexError, [impEff, delEff])
        | w :: _ => (.ok (.profile (mkProfile w)), [impEff, delEff])
    | _ :: _ :: _ => (.ok (.err multipleMatchMsg), [impEff])

/-- Whether a trace contains a delete-contacts request. -/
def hasDelete (tr : List Effect) : Bool :=
  tr.any fun e =>
    match e with
    | .deleteContacts _ => true
    | _ => false

/-- Message returned by each `except` branch of `is_phone_registered`
(`main.py` lines 271-280). Exceptions without a dedicated branch fall into
the generic `except Exception` handler. -/
def registeredExcMsg : PyExc → String
  | .floodWait s => "Flood wait error: " ++ toString s ++ " seconds."
  | .userDeactivated => "Tài khoản bị vô hiệu hoá."
  | .userRestricted => "Tài khoản bị hạn chế."
  | .phoneNumberUnoccupied => "Chưa đăng ký."
  | e => "An error occurred: " ++ pyStr e

/-- `is_phone_registered` from `main.py`: lightweight probe that imports the
phone, classifies registered or not by the `users` list, deletes the added
contact when one was reported, and maps every vendor exception to
a returned string (nothing propagates). -/
def is_phone_registered (client : ProbeClient) (phone : String) :
    String × List Effect :=
  let impEff := Effect.importContacts phone "Test" "User"
  match client.importResult with
  | .error e => (registeredExcMsg e, [impEff])
  | .ok result =>
    let status := if result.users.isEmpty then "Chưa đăng ký." else "Đã đăng ký."
    match result.imported with
    | [] => (status, [impEff])
    | c :: _ =>
      let delEff := Effect.deleteContacts [c.user_id]
      match client.deleteResult [c.user_id] with
      | .error e => (registeredExcMsg e, [impEff, delEff])
      | .ok _ => (status, [impEff, delEff])

/-- The whitespace characters matched by the Python regex `\s` with
`re.UNICODE`: ASCII whitespace, the C1 file and record separators, and the
Unicode space characters. -/
def isPythonSpace (c : Char) : Bool :=
  c == ' ' || c == '\t' || c == '\n' || c == '\r' || c == '\x0b' || c == '\x0c' ||
  c == '\x1c' || c == '\x1d' || c == '\x1e' || c == '\x1f' ||
  c == '\x85' || c == '\xa0' || c == ' ' ||
  (' ' ≤ c && c ≤ ' ') ||
  c == ' ' || c == ' ' || c == ' ' || c == ' ' || c == '　'

/-- `re.sub(r"\s+", "", p, flags=re.UNICODE)`: remove every whitespace
character from the string. -/
def stripWS (s : String) : String :=
  String.mk (s.data.filter fun c => !isPythonSpace c)

/-- Helper for the Python `split(",")`: cut the character list at every
comma, keeping empty pieces, `cur` being the current piece reversed. -/
def splitCommaAux (cur : List Char) : List Char → List (List Char)
  | [] => [cur.reverse]
  | c :: cs =>
    if c == ',' then cur.reverse :: splitCommaAux [] cs
    else splitCommaAux (c :: cur) cs

/-- Python `phone_numbers.split(",")`: split on every comma, keeping empty
entries; the empty string gives one empty entry. -/
def pySplitComma (s : String) : List String :=
  (splitCommaAux [] s.data).map String.mk

/-- `phone_numbers.split(",")` followed by whitespace stripping of each
entry (`main.py` line 119). -/
def normalizePhones (phone_numbers : String) : List String :=
  (pySplitComma phone_numbers).map stripWS

/-- The Python `phone not in result` test on a dict modelled as an
association list: membership of the key among the keys. -/
def containsKey (acc : List (String × α)) (k : String) : Bool :=
  (acc.map Prod.fst).contains k

/-- First-occurrence deduplication of a list of keys, preserving order:
the key set of the dict built by the batch loops, relative to the keys
already `seen`. -/
def dedupFirst (seen : List String) : List String → List String
  | [] => []
  | p :: ps =>
    if seen.contains p then dedupFirst seen ps
    else p :: dedupFirst (seen ++ [p]) ps

/-- The loop of `validate_users`: probe each phone not already in the dict;
an exception from `get_names` aborts the loop and propagates, discarding
the partial dict. -/
def validateLoop (probe : String → Except PyExc LookupResult × List Effect)
    (acc : List (String × LookupResult)) (tr : List Effect) :
    List String → Except PyExc (List (String × LookupResult)) × List Effect
  | [] => (.ok acc, tr)
  | p :: ps =>
    if containsKey acc p then validateLoop probe acc tr ps
    else
      match probe p with
      | (.ok r, t) => validateLoop probe (acc ++ [(p, r)]) (tr ++ t) ps
      | (.error e, t) => (.error e, tr ++ t)

/-- The vendor oracle for a batch call: the responses each phone number
would receive. -/
def VendorEnv := String → ProbeClient

/-- `validate_users` from `main.py`: on empty input prompt interactively
(the prompt reply is the `promptReply` parameter), split on commas, strip
whitespace, probe each distinct phone once with `get_names`. -/
def validate_users (env : VendorEnv) (promptReply : String)
    (phone_numbers : String) :
    Except PyExc (List (String × LookupResult)) × List Effect :=
  if phone_numbers.isEmpty then
    let (r, tr) := validateLoop (fun p => get_names (env p) p) [] []
      (normalizePhones promptReply)
    (r, Effect.promptPhones :: tr)
  else
    validateLoop (fun p => get_names (env p) p) [] [] (normalizePhones phone_numbers)

/-- The loop of `get_info_phone_number`: `is_phone_registered` never
raises, so the loop always completes. -/
def infoLoop (probe : String → String × List Effect)
    (acc : List (String × String)) (tr : List Effect) :
    List String → List (String × String) × List Effect
  | [] => (acc, tr)
  | p :: ps =>
    if containsKey acc p then infoLoop probe acc tr ps
    else
      let (r, t) := probe p
      infoLoop probe (acc ++ [(p, r)]) (tr ++ t) ps

/-- `get_info_phone_number` from `main.py`: like `validate_users` but with
the lightweight probe; also prompts interactively on empty input. -/
def get_info_phone_number (env : VendorEnv) (promptReply : String)
    (phone_numbers : String) :
    List (String × String) × List Effect :=
  if phone_numbers.isEmpty then
    let (r, tr) := infoLoop (fun p => is_phone_registered (env p) p) [] []
      (normalizePhones promptReply)
    (r, Effect.promptPhones :: tr)
  else
    infoLoop (fun p => is_phone_registered (env p) p) [] [] (normalizePhones phone_numbers)

/-- Vendor oracle for a `login` call: whether the constructed client
connects, whether the session is already authorized, and the outcomes of
the code-send and sign-in requests of the interactive branch. -/
structure LoginEnv where
  startup : Except PyExc Unit
  authorized : Bool
  sendCodeResult : Except PyExc Unit
  signInCodeResult : Except PyExc Unit
  signInPwResult : Except PyExc Unit

/-- `login` from `main.py`: connect, optionally run the interactive
code/password flow when `is_send_code` is set and the session is not
authorized, and return `none` (no client) when `is_send_code` is false on
an unauthorized session. Exceptions propagate untouched except
`SessionPasswordNeededError`, which switches to the password prompt. -/
def login (env : LoginEnv) (phone_number : String) (is_send_code : Bool) :
    Except PyExc (Option Unit) × List Effect :=
  match env.startup with
  | .error e => (.error e, [])
  | .ok _ =>
    let tr0 := [Effect.connect]
    if is_send_code && !env.authorized then
      match env.sendCodeResult with
      | .error e => (.error e, tr0 ++ [.sendCode phone_number])
      | .ok _ =>
        let tr1 := tr0 ++ [.sendCode phone_number, .promptCode, .signInWithCode]
        match env.signInCodeResult with
        | .ok _ => (.ok (some ()), tr1)
        | .error .sessionPasswordNeeded =>
          let tr2 := tr1 ++ [.promptPassword, .signInWithPassword]
          match env.signInPwResult with
          | .ok _ => (.ok (some ()), tr2)
          | .error e => (.error e, tr2)
        | .error e => (.error e, tr1)
    else if !is_send_code && !env.authorized then
      (.ok none, tr0)
    else
      (.ok (some ()), tr0)

/-- An incoming HTTP request: the `api-key` header (when present) and the
JSON body fields the handlers read (when present). -/
structure HttpRequest where
  apiKey : Option String
  app_id : Option String
  api_hash : Option String
  phone_number : Option String
  phone_numbers : Option String
  deriving DecidableEq, Repr

/-- The `{data, message, code}` JSON envelope; `data` and `message` are
absent in the envelopes that omit them. -/
structure Envelope where
  data : Option (List (String × String))
  message : Option String
  code : Nat
  deriving DecidableEq, Repr

/-- A handler response body: either an envelope or the raw batch mapping
returned by the accounts endpoint. -/
inductive RespBody where
  | envelope (e : Envelope)
  | mapping (m : List (String × String))
  deriving DecidableEq, Repr

/-- What a handler produces: an HTTP response, or an exception the handler
does not catch (the framework then emits a 500 error page). -/
inductive HttpOutcome where
  | response (status : Nat) (body : RespBody)
  | unhandled (e : PyExc)
  deriving DecidableEq, Repr

/-- The api-key gate of both handlers: the header must be present and equal
to `os.getenv("API_KEY")` (absent when the variable is unset; a string
never equals an absent value). -/
def apiKeyOk (req : HttpRequest) (secret : Option String) : Bool :=
  match req.apiKey, secret with
  | some k, some s => k == s
  | _, _ => false

/-- The fixed 401 envelope (`main.py` lines 306-310 and 340-344). -/
def invalidKeyEnvelope : Envelope :=
  { data := some [], message := some "api key is invalid", code := 401 }

/-- The 500 envelope of the `except ValueError` branches (`main.py`
lines 328-334 and 358-364). -/
def loginFailedEnvelope : Envelope :=
  { data := some [], message := some "login is failed", code := 500 }

/-- `handle_account_request` from `main.py` (`POST /v1/api/accounts`):
check the api key, log in without sending a code, answer
`jsonify({"code": 500})` (HTTP 200, no disconnect) when `login` returns
`None`, otherwise run the lightweight batch probe and disconnect.
`ValueError` maps to the 500 envelope; other exceptions are unhandled. -/
def handle_account_request (secret : Option String) (lenv : LoginEnv)
    (venv : VendorEnv) (promptReply : String) (req : HttpRequest) :
    HttpOutcome × List Effect :=
  if !apiKeyOk req secret then
    (.response 401 (.envelope invalidKeyEnvelope), [])
  else
    match req.app_id, req.api_hash, req.phone_number with
    | some _, some _, some phone =>
      match login lenv phone false with
      | (.error (.valueError _), tr) =>
        (.response 500 (.envelope loginFailedEnvelope), tr)
      | (.error e, tr) => (.unhandled e, tr)
      | (.ok none, tr) =>
        (.response 200 (.envelope { data := none, message := none, code := 500 }), tr)
      | (.ok (some _), tr) =>
        match req.phone_numbers with
        | none => (.unhandled (.keyError "phone_numbers"), tr)
        | some pns =>
          let (res, tr2) := get_info_phone_number venv promptReply pns
          (.response 200 (.mapping res), tr ++ tr2 ++ [.disconnect])
    | none, _, _ => (.unhandled (.keyError "app_id"), [])
    | some _, none, _ => (.unhandled (.keyError "api_hash"), [])
    | some _, some _, none => (.unhandled (.keyError "phone_number"), [])

/-- `handle_login_request` from `main.py` (`POST /v1/api/auth/login`):
check the api key, log in with the interactive code flow, disconnect and
answer the 200 envelope. `ValueError` maps to the 500 envelope; other
exceptions are unhandled (and the client is then not disconnected). -/
def handle_login_request (secret : Option String) (lenv : LoginEnv)
    (req : HttpRequest) : HttpOutcome × List Effect :=
  if !apiKeyOk req secret then
    (.response 401 (.envelope invalidKeyEnvelope), [])
  else
    match req.app_id, req.api_hash, req.phone_number with
    | some _, some _, some phone =>
      match login lenv phone true with
      | (.error (.valueError _), tr) =>
        (.response 500 (.envelope loginFailedEnvelope), tr)
      | (.error e, tr) => (.unhandled e, tr)
      | (.ok none, tr) =>
        (.unhandled (.attributeError "NoneType object has no attribute disconnect"), tr)
      | (.ok (some _), tr) =>
        (.response 200
          (.envelope { data := none, message := some "login is successfully", code := 200 }),
          tr ++ [.disconnect])
    | none, _, _ => (.unhandled (.keyError "app_id"), [])
    | some _, none, _ => (.unhandled (.keyError "api_hash"), [])
    | some _, some _, none => (.unhandled (.keyError "phone_number"), [])

/-- The route table of the Flask app in `main.py`: the `@app.route`
decorations, as (method, path) pairs. -/
def routes : List (String × String) :=
  [("POST", "/v1/api/accounts"), ("POST", "/v1/api/auth/login")]

/-- Whether a `get_names` outcome is a profile record. -/
def resultIsProfile : Except PyExc LookupResult → Bool
  | .ok (.profile _) => true
  | _ => false

/-! ### Concrete fixtures used by counterexamples and witnesses -/

/-- A sample vendor user record. -/
def sampleUser : UserRec :=
  { id := 42, username := some "user42", usernames := [], first_name := some "A",
    last_name := none, fake := false, verified := true, premium := false,
    mutual_contact := false, bot := false, bot_chat_history := false,
    restricted := false, restriction_reason := [], status := .recently,
    phone := some "15555550001" }

/-- The enriched record the delete response carries for the same user. -/
def sampleUserB : UserRec :=
  { sampleUser with username := some "user42full", status := .online }

/-- A vendor oracle whose import reports an imported contact but no matched
users. -/
def importedNoUsersClient : ProbeClient :=
  { importResult := .ok { users := [], imported := [{ user_id := 7 }] }
    deleteResult := fun _ => .ok { users := [] } }

/-- A vendor oracle with a single matched user and a successful delete. -/
def singleMatchClient : ProbeClient :=
  { importResult := .ok { users := [sampleUser], imported := [{ user_id := 42 }] }
    deleteResult := fun _ => .ok { users := [sampleUserB] } }

/-- A vendor oracle with a single matched user whose delete raises
`TypeError`. -/
def typeErrClient : ProbeClient :=
  { importResult := .ok { users := [sampleUser], imported := [{ user_id := 42 }] }
    deleteResult := fun _ => .error (.typeError "NoneType") }

/-- A batch vendor oracle giving every phone the no-user import outcome. -/
def constVendorEnv : VendorEnv := fun _ => importedNoUsersClient

/-- A login oracle for a fresh, unauthorized session where every vendor
call succeeds. -/
def freshLoginEnv : LoginEnv :=
  { startup := .ok (), authorized := false, sendCodeResult := .ok ()
    signInCodeResult := .ok (), signInPwResult := .ok () }

/-- A login oracle for an already-authorized session. -/
def authorizedLoginEnv : LoginEnv := { freshLoginEnv with authorized := true }

/-- A well-formed request carrying the right api key and all body fields. -/
def validReq : HttpRequest :=
  { apiKey := some "secret", app_id := some "12345", api_hash := some "abcd"
    phone_number := some "+15555550009", phone_numbers := some "+15555551234" }

/-- The same request without the `api-key` header. -/
def noKeyReq : HttpRequest := { validReq with apiKey := none }

/-- The same request with an empty `phone_numbers` body field. -/
def emptyPhonesReq : HttpRequest := { validReq with phone_numbers := some "" }

/-! ### Helper lemmas on the batch loops -/

/-- The keys produced by the `get_info_phone_number` loop are the keys of
the accumulator followed by the first-occurrence deduplication of the
remaining phones. -/
theorem infoLoop_fst_map (probe : String → String × List Effect) :
    ∀ (ps : List String) (acc : List (String × String)) (tr : List Effect),
      ((infoLoop probe acc tr ps).1).map Prod.fst =
        acc.map Prod.fst ++ dedupFirst (acc.map Prod.fst) ps := by
  intro ps
  induction ps with
  | nil => intro acc tr; simp [infoLoop, dedupFirst]
  | cons p ps ih =>
    intro acc tr
    by_cases h : p ∈ acc.map Prod.fst
    · simp [infoLoop, containsKey, h, dedupFirst, ih]
    · have h2 : dedupFirst (acc.map Prod.fst) (p :: ps) =
          p :: dedupFirst (acc.map Prod.fst ++ [p]) ps := by
        simp [dedupFirst, h]
      have h3 : infoLoop probe acc tr (p :: ps) =
          infoLoop probe (acc ++ [(p, (probe p).1)]) (tr ++ (probe p).2) (ps) := by
        rcases hp : probe p with ⟨r, t⟩
        simp only [infoLoop, containsKey, hp]
        rw [if_neg (by simpa using h)]
      rw [h2, h3, ih]
      simp

/-- Same statement for the `validate_users` loop, on the paths where it
returns a dict. -/
theorem validateLoop_fst_map
    (probe : String → Except PyExc LookupResult × List Effect) :
    ∀ (ps : List String) (acc : List (String × LookupResult)) (tr tr2 : List Effect)
      (m : List (String × LookupResult)),
      validateLoop probe acc tr ps = (.ok m, tr2) →
      m.map Prod.fst = acc.map Prod.fst ++ dedupFirst (acc.map Prod.fst) ps := by
  intro ps
  induction ps with
  | nil =>
    intro acc tr tr2 m h
    simp [validateLoop] at h
    simp [h.1.symm, dedupFirst]
  | cons p ps ih =>
    intro acc tr tr2 m h
    by_cases hc : p ∈ acc.map Prod.fst
    · rw [show validateLoop probe acc tr (p :: ps) = validateLoop probe acc tr ps by
        simp only [validateLoop, containsKey]
        rw [if_pos (by simpa using hc)]] at h
      simpa [dedupFirst, hc] using ih acc tr tr2 m h
    · rcases hp : probe p with ⟨r, t⟩
      rw [show validateLoop probe acc tr (p :: ps) =
          match probe p with
          | (.ok r, t) => validateLoop probe (acc ++ [(p, r)]) (tr ++ t) ps
          | (.error e, t) => (.error e, tr ++ t) by
        simp only [validateLoop, containsKey]
        rw [if_neg (by simpa using hc)]] at h
      rw [hp] at h
      match r, h with
      | .ok v, h =>
        have := ih (acc ++ [(p, v)]) (tr ++ t) tr2 m h
        rw [this]
        simp [dedupFirst, hc]

/-- Members of `dedupFirst seen l` are members of `l` outside `seen`. -/
theorem mem_dedupFirst (x : String) :
    ∀ (l seen : List String), x ∈ dedupFirst seen l ↔ x ∈ l ∧ x ∉ seen := by
  intro l
  induction l with
  | nil => intro seen; simp [dedupFirst]
  | cons p ps ih =>
    intro seen
    by_cases hp : p ∈ seen
    · rw [show dedupFirst seen (p :: ps) = dedupFirst seen ps by simp [dedupFirst, hp], ih]
      constructor
      · rintro ⟨hx, hn⟩; exact ⟨List.mem_cons_of_mem _ hx, hn⟩
      · rintro ⟨hx, hn⟩
        rcases List.mem_cons.mp hx with rfl | hx
        · exact absurd hp hn
        · exact ⟨hx, hn⟩
    · rw [show dedupFirst seen (p :: ps) = p :: dedupFirst (seen ++ [p]) ps by
        simp [dedupFirst, hp]]
      constructor
      · intro hx
        rcases List.mem_cons.mp hx with rfl | hx
        · exact ⟨List.mem_cons_self _ _, hp⟩
        · rcases (ih _).mp hx with ⟨h1, h2⟩
          simp only [List.mem_append, List.mem_singleton, not_or] at h2
          exact ⟨List.mem_cons_of_mem _ h1, h2.1⟩
      · rintro ⟨hx, hn⟩
        rcases List.mem_cons.mp hx with rfl | hx
        · exact List.mem_cons_self _ _
        · by_cases hxp : x = p
          · subst hxp; exact List.mem_cons_self _ _
          · exact List.mem_cons_of_mem _ ((ih _).mpr ⟨hx, by simp [hn, hxp]⟩)

/-! ### Characterization lemmas for the probes -/

theorem getNames_import_typeErr (client : ProbeClient) (phone m : String)
    (himp : client.importResult = .error (.typeError m)) :
    get_names client phone =
      (.ok (.err (typeErrorMsg m phone)), [.importContacts phone "" ""]) := by
  simp [get_names, himp]

theorem getNames_import_err (client : ProbeClient) (phone : String) (e : PyExc)
    (himp : client.importResult = .error e) (hne : ∀ m, e ≠ .typeError m) :
    get_names client phone = (.error e, [.importContacts phone "" ""]) := by
  cases e <;> simp [get_names, himp]
  exact absurd rfl (hne _)

theorem getNames_zero (client : ProbeClient) (phone : String) (r : ImportResponse)
    (himp : client.importResult = .ok r) (hu : r.users = []) :
    get_names client phone =
      (.ok (.err notOnTelegramMsg), [.importContacts phone "" ""]) := by
  simp [get_names, himp, hu]

theorem getNames_multi (client : ProbeClient) (phone : String) (r : ImportResponse)
    (u v : UserRec) (rest : List UserRec)
    (himp : client.importResult = .ok r) (hu : r.users = u :: v :: rest) :
    get_names client phone =
      (.ok (.err multipleMatchMsg), [.importContacts phone "" ""]) := by
  simp [get_names, himp, hu]

theorem getNames_one_trace (client : ProbeClient) (phone : String)
    (r : ImportResponse) (u : UserRec)
    (himp : client.importResult = .ok r) (hu : r.users = [u]) :
    (get_names client phone).2 =
      [.importContacts phone "" "", .deleteContacts [u.id]] := by
  rcases hd : client.deleteResult [u.id] with e | upd
  · cases e <;> simp [get_names, himp, hu, hd]
  · rcases hw : upd.users with _ | ⟨w, ws⟩ <;> simp [get_names, himp, hu, hd, hw]

theorem getNames_one_typeErr (client : ProbeClient) (phone m : String)
    (r : ImportResponse) (u : UserRec)
    (himp : client.importResult = .ok r) (hu : r.users = [u])
    (hd : client.deleteResult [u.id] = .error (.typeError m)) :
    (get_names client phone).1 = .ok (.err (typeErrorMsg m phone)) := by
  simp [get_names, himp, hu, hd]

theorem getNames_one_err (client : ProbeClient) (phone : String) (e : PyExc)
    (r : ImportResponse) (u : UserRec)
    (himp : client.importResult = .ok r) (hu : r.users = [u])
    (hd : client.deleteResult [u.id] = .error e) (hne : ∀ m, e ≠ .typeError m) :
    (get_names client phone).1 = .error e := by
  cases e <;> simp [get_names, himp, hu, hd]
  exact absurd rfl (hne _)

theorem getNames_one_ok (client : ProbeClient) (phone : String)
    (r : ImportResponse) (u w : UserRec) (upd : UpdatesResponse) (ws : List UserRec)
    (himp : client.importResult = .ok r) (hu : r.users = [u])
    (hd : client.deleteResult [u.id] = .ok upd) (hw : upd.users = w :: ws) :
    (get_names client phone).1 = .ok (.profile (mkProfile w)) := by
  simp [get_names, himp, hu, hd, hw]

theorem getNames_one_ok_empty (client : ProbeClient) (phone : String)
    (r : ImportResponse) (u : UserRec) (upd : UpdatesResponse)
    (himp : client.importResult = .ok r) (hu : r.users = [u])
    (hd : client.deleteResult [u.id] = .ok upd) (hw : upd.users = []) :
    (get_names client phone).1 = .error .indexError := by
  simp [get_names, himp, hu, hd, hw]

theorem reg_import_err (client : ProbeClient) (phone : String) (e : PyExc)
    (himp : client.importResult = .error e) :
    is_phone_registered client phone =
      (registeredExcMsg e, [.importContacts phone "Test" "User"]) := by
  simp [is_phone_registered, himp]

theorem reg_none_imported (client : ProbeClient) (phone : String) (r : ImportResponse)
    (himp : client.importResult = .ok r) (hi : r.imported = []) :
    is_phone_registered client phone =
      ((if r.users.isEmpty then "Chưa đăng ký." else "Đã đăng ký."),
        [.importContacts phone "Test" "User"]) := by
  simp [is_phone_registered, himp, hi]

theorem reg_imported_err (client : ProbeClient) (phone : String) (r : ImportResponse)
    (c : ImportedContact) (cs : List ImportedContact) (e : PyExc)
    (himp : client.importResult = .ok r) (hi : r.imported = c :: cs)
    (hd : client.deleteResult [c.user_id] = .error e) :
    is_phone_registered client phone =
      (registeredExcMsg e,
        [.importContacts phone "Test" "User", .deleteContacts [c.user_id]]) := by
  simp [is_phone_registered, himp, hi, hd]

theorem reg_imported_ok (client : ProbeClient) (phone : String) (r : ImportResponse)
    (c : ImportedContact) (cs : List ImportedContact) (upd : UpdatesResponse)
    (himp : client.importResult = .ok r) (hi : r.imported = c :: cs)
    (hd : client.deleteResult [c.user_id] = .ok upd) :
    is_phone_registered client phone =
      ((if r.users.isEmpty then "Chưa đăng ký." else "Đã đăng ký."),
        [.importContacts phone "Test" "User", .deleteContacts [c.user_id]]) := by
  simp [is_phone_registered, himp, hi, hd]

/-- `dedupFirst` produces no duplicate keys. -/
theorem dedupFirst_nodup : ∀ (l seen : List String), (dedupFirst seen l).Nodup := by
  intro l
  induction l with
  | nil => intro seen; simp [dedupFirst]
  | cons p ps ih =>
    intro seen
    by_cases hp : p ∈ seen
    · rw [show dedupFirst seen (p :: ps) = dedupFirst seen ps by simp [dedupFirst, hp]]
      exact ih seen
    · rw [show dedupFirst seen (p :: ps) = p :: dedupFirst (seen ++ [p]) ps by
        simp [dedupFirst, hp]]
      refine List.nodup_cons.mpr ⟨?_, ih _⟩
      intro hmem
      have := (mem_dedupFirst p ps (seen ++ [p])).mp hmem
      simp at this

/-! ### Claim theorems -/

/-- C1, counterexample: the invariant "a contact added as a side effect of
probing is removed before the probe returns" fails on `get_names` at a
concrete input where the import response reports an imported contact but
zero matched users: the probe returns normally and issues no
delete-contacts request. -/
theorem probe_removes_imported_contact_cex :
    importedNoUsersClient.importResult =
      .ok { users := [], imported := [{ user_id := 7 }] } ∧
    (get_names importedNoUsersClient "+15555550000").1 =
      .ok (.err notOnTelegramMsg) ∧
    hasDelete (get_names importedNoUsersClient "+15555550000").2 = false :=
  ⟨rfl, rfl, rfl⟩

/-- C1, amended: `get_names` issues the delete-contacts request exactly on
the single-match path, where a delete `TypeError` is reported in the
result and any other delete failure propagates to the caller; on zero- or
multi-match import outcomes it issues no delete even if a contact was
added. `is_phone_registered` issues the delete whenever the import
reported an imported contact and reports any delete failure as its
returned string. -/
theorem probe_delete_policy (client : ProbeClient) (phone : String) :
    (∀ r u, client.importResult = .ok r → r.users = [u] →
      Effect.deleteContacts [u.id] ∈ (get_names client phone).2) ∧
    (∀ r u m, client.importResult = .ok r → r.users = [u] →
      client.deleteResult [u.id] = .error (.typeError m) →
      (get_names client phone).1 = .ok (.err (typeErrorMsg m phone))) ∧
    (∀ r u e, client.importResult = .ok r → r.users = [u] →
      client.deleteResult [u.id] = .error e → (∀ m, e ≠ .typeError m) →
      (get_names client phone).1 = .error e) ∧
    (∀ r, client.importResult = .ok r → r.users.length ≠ 1 →
      hasDelete (get_names client phone).2 = false) ∧
    (∀ r c cs, client.importResult = .ok r → r.imported = c :: cs →
      Effect.deleteContacts [c.user_id] ∈ (is_phone_registered client phone).2) ∧
    (∀ r c cs e, client.importResult = .ok r → r.imported = c :: cs →
      client.deleteResult [c.user_id] = .error e →
      (is_phone_registered client phone).1 = registeredExcMsg e) := by
  refine ⟨?_, ?_, ?_, ?_, ?_, ?_⟩
  · intro r u himp hu
    rw [getNames_one_trace client phone r u himp hu]
    simp
  · intro r u m himp hu hd
    exact getNames_one_typeErr client phone m r u himp hu hd
  · intro r u e himp hu hd hne
    exact getNames_one_err client phone e r u himp hu hd hne
  · intro r himp hlen
    rcases hu : r.users with _ | ⟨u, _ | ⟨v, rest⟩⟩
    · rw [getNames_zero client phone r himp hu]; rfl
    · exact absurd (by rw [hu]; rfl) hlen
    · rw [getNames_multi client phone r u v rest himp hu]; rfl
  · intro r c cs himp hi
    rcases hd : client.deleteResult [c.user_id] with e | upd
    · rw [reg_imported_err client phone r c cs e himp hi hd]; simp
    · rw [reg_imported_ok client phone r c cs upd himp hi hd]; simp
  · intro r c cs e himp hi hd
    rw [reg_imported_err client phone r c cs e himp hi hd]

/-- C1, witness: at a concrete oracle whose import reports an imported
contact, the lightweight probe issues the delete for that contact. -/
theorem probe_delete_policy_witness :
    Effect.deleteContacts [7] ∈
      (is_phone_registered importedNoUsersClient "+15555550002").2 :=
  (probe_delete_policy importedNoUsersClient "+15555550002").2.2.2.2.1
    _ _ _ rfl rfl

/-- C2, counterexample: the import step returns exactly one user, yet the
result of `get_names` is not a profile record, because the delete request
raises `TypeError`; the "if and only if" of the claim fails in the "if"
direction. -/
theorem getNames_profile_iff_cex :
    typeErrClient.importResult =
      .ok { users := [sampleUser], imported := [{ user_id := 42 }] } ∧
    resultIsProfile (get_names typeErrClient "+15555550001").1 = false ∧
    (get_names typeErrClient "+15555550001").1 =
      .ok (.err (typeErrorMsg "NoneType" "+15555550001")) :=
  ⟨rfl, rfl, rfl⟩

/-- C2, amended: the result of `get_names` is a profile record only if
the import step returned exactly one user, and it is one whenever additionally
the delete succeeds and returns a user record; zero returned users yield
the not-registered classification and never a profile record; more than
one returned user yields the ambiguous-match error, never a profile
record, with no delete-contacts request attempted. -/
theorem getNames_match_classification (client : ProbeClient) (phone : String) :
    (∀ p, (get_names client phone).1 = .ok (.profile p) →
      ∃ r u, client.importResult = .ok r ∧ r.users = [u]) ∧
    (∀ r, client.importResult = .ok r → r.users = [] →
      (get_names client phone).1 = .ok (.err notOnTelegramMsg)) ∧
    (∀ r u v rest, client.importResult = .ok r → r.users = u :: v :: rest →
      (get_names client phone).1 = .ok (.err multipleMatchMsg) ∧
      hasDelete (get_names client phone).2 = false) ∧
    (∀ r u upd w ws, client.importResult = .ok r → r.users = [u] →
      client.deleteResult [u.id] = .ok upd → upd.users = w :: ws →
      (get_names client phone).1 = .ok (.profile (mkProfile w))) := by
  refine ⟨?_, ?_, ?_, ?_⟩
  · intro p hp
    rcases himp : client.importResult with e | r
    · rcases he : e with m | _ | _ | _ | _ | _ | _ | _ | _ | _ | _
      · rw [he] at himp
        rw [getNames_import_typeErr client phone m himp] at hp
        exact absurd hp (by simp)
      all_goals
        rw [he] at himp
        rw [getNames_import_err client phone _ himp (by intro m h; simp at h)] at hp
        exact absurd hp (by simp)
    · rcases hu : r.users with _ | ⟨u, _ | ⟨v, rest⟩⟩
      · rw [getNames_zero client phone r himp hu] at hp
        exact absurd hp (by simp)
      · exact ⟨r, u, by simp [himp], hu⟩
      · rw [getNames_multi client phone r u v rest himp hu] at hp
        exact absurd hp (by simp)
  · intro r himp hu
    rw [getNames_zero client phone r himp hu]
  · intro r u v rest himp hu
    rw [getNames_multi client phone r u v rest himp hu]
    exact ⟨rfl, rfl⟩
  · intro r u upd w ws himp hu hd hw
    exact getNames_one_ok client phone r u w upd ws himp hu hd hw

/-- C2, witness: at a concrete oracle with zero matched users, the result
is the not-registered classification. -/
theorem getNames_match_classification_witness :
    (get_names importedNoUsersClient "+15555550003").1 =
      .ok (.err notOnTelegramMsg) :=
  (getNames_match_classification importedNoUsersClient "+15555550003").2.1
    _ rfl rfl

/-- C3: when the import step returns exactly one user, `get_names` always
issues a delete-contacts request for that user id, and when the delete
succeeds its response user record — not the import response record — is
the source of the returned profile, via `mkProfile` which carries the id,
username(s), names, fake/verified/premium/mutual-contact/bot flags,
restriction info, the human-readable last-seen string and the phone. -/
theorem getNames_singleMatch_delete_source (client : ProbeClient)
    (phone : String) (r : ImportResponse) (u : UserRec)
    (himp : client.importResult = .ok r) (hu : r.users = [u]) :
    Effect.deleteContacts [u.id] ∈ (get_names client phone).2 ∧
    ∀ upd w ws, client.deleteResult [u.id] = .ok upd → upd.users = w :: ws →
      (get_names client phone).1 = .ok (.profile (mkProfile w)) := by
  constructor
  · rw [getNames_one_trace client phone r u himp hu]; simp
  · intro upd w ws hd hw
    exact getNames_one_ok client phone r u w upd ws himp hu hd hw

/-- C3, witness: at a concrete single-match oracle the delete for user id
42 is issued and the profile is built from the delete response record. -/
theorem getNames_singleMatch_delete_source_witness :
    Effect.deleteContacts [42] ∈ (get_names singleMatchClient "+15555550001").2 ∧
    (get_names singleMatchClient "+15555550001").1 =
      .ok (.profile (mkProfile sampleUserB)) :=
  ⟨(getNames_singleMatch_delete_source singleMatchClient "+15555550001"
      _ _ rfl rfl).1,
   (getNames_singleMatch_delete_source singleMatchClient "+15555550001"
      _ _ rfl rfl).2 _ _ _ rfl rfl⟩

/-- C4: for every non-empty comma-separated input, both batch validators
key their result dict by the first-occurrence deduplication of the
whitespace-stripped entries: one entry per distinct normalized phone, in
input order, duplicates collapsing to the first occurrence; and the
example input collapses to the single key. -/
theorem batch_dedup_keys :
    (∀ env pr s, s.isEmpty = false →
      ((get_info_phone_number env pr s).1).map Prod.fst =
        dedupFirst [] (normalizePhones s)) ∧
    (∀ env pr s m tr, s.isEmpty = false →
      validate_users env pr s = (.ok m, tr) →
      m.map Prod.fst = dedupFirst [] (normalizePhones s)) ∧
    (∀ seen l, (dedupFirst seen l).Nodup) ∧
    (∀ seen l x, x ∈ dedupFirst seen l ↔ x ∈ l ∧ x ∉ seen) ∧
    dedupFirst [] (normalizePhones "+15555551234, +1 5555551234") =
      ["+15555551234"] := by
  refine ⟨?_, ?_, ?_, ?_, ?_⟩
  · intro env pr s hs
    rw [show get_info_phone_number env pr s =
        infoLoop (fun p => is_phone_registered (env p) p) [] []
          (normalizePhones s) by
      simp [get_info_phone_number, hs]]
    simpa using infoLoop_fst_map _ (normalizePhones s) [] []
  · intro env pr s m tr hs hv
    rw [show validate_users env pr s =
        validateLoop (fun p => get_names (env p) p) [] [] (normalizePhones s) by
      simp [validate_users, hs]] at hv
    simpa using validateLoop_fst_map _ (normalizePhones s) [] [] tr m hv
  · intro seen l; exact dedupFirst_nodup l seen
  · intro seen l x; exact mem_dedupFirst x l seen
  · rfl

/-- C4, witness: the example input applied to a concrete vendor oracle. -/
theorem batch_dedup_keys_witness :
    ((get_info_phone_number constVendorEnv ""
        "+15555551234, +1 5555551234").1).map Prod.fst =
      dedupFirst [] (normalizePhones "+15555551234, +1 5555551234") :=
  batch_dedup_keys.1 constVendorEnv "" _ rfl

/-- C5: at a concrete valid request to the accounts endpoint whose session
is not authorized, the handler connects a client, returns a response, and
never disconnects — the claimed always-disconnect property fails on this
error path. -/
theorem accounts_handler_leaks_session :
    (handle_account_request (some "secret") freshLoginEnv constVendorEnv ""
        validReq).1 =
      .response 200 (.envelope { data := none, message := none, code := 500 }) ∧
    Effect.connect ∈
      (handle_account_request (some "secret") freshLoginEnv constVendorEnv ""
        validReq).2 ∧
    Effect.disconnect ∉
      (handle_account_request (some "secret") freshLoginEnv constVendorEnv ""
        validReq).2 := by
  refine ⟨rfl, ?_, ?_⟩ <;> decide

/-- C6: any request whose api-key header is missing or wrong gets the fixed
401 envelope from both endpoints, with an empty effect trace — no vendor
call is made. -/
theorem invalid_key_rejected (secret : Option String) (lenv : LoginEnv)
    (venv : VendorEnv) (pr : String) (req : HttpRequest)
    (hk : apiKeyOk req secret = false) :
    handle_account_request secret lenv venv pr req =
      (.response 401 (.envelope invalidKeyEnvelope), []) ∧
    handle_login_request secret lenv req =
      (.response 401 (.envelope invalidKeyEnvelope), []) := by
  constructor <;> simp [handle_account_request, handle_login_request, hk]

/-- C6, witness: a concrete request without the header is rejected by both
endpoints with no effects. -/
theorem invalid_key_rejected_witness :
    handle_account_request (some "secret") freshLoginEnv constVendorEnv ""
        noKeyReq =
      (.response 401 (.envelope invalidKeyEnvelope), []) ∧
    handle_login_request (some "secret") freshLoginEnv noKeyReq =
      (.response 401 (.envelope invalidKeyEnvelope), []) :=
  invalid_key_rejected (some "secret") freshLoginEnv constVendorEnv "" noKeyReq rfl

/-- C7, counterexample: the route table of the app has no send-code
endpoint. -/
theorem no_send_code_route_cex :
    ("POST", "/v1/api/auth/send-code") ∉ routes := by decide

/-- C7, amended: the HTTP surface provides exactly the accounts and login
endpoints and no `POST /v1/api/auth/send-code` endpoint. -/
theorem routes_exact :
    routes = [("POST", "/v1/api/accounts"), ("POST", "/v1/api/auth/login")] ∧
    ("POST", "/v1/api/auth/send-code") ∉
      [("POST", "/v1/api/accounts"), ("POST", "/v1/api/auth/login")] :=
  ⟨rfl, by decide⟩

/-- C8: at a concrete accounts request with a valid key, an authorized
session and an empty `phone_numbers` field, the handler prompts for input
interactively and returns a normal 200 mapping built from the prompt
reply — it does not return an error response. -/
theorem accounts_empty_input_prompts :
    Effect.promptPhones ∈
      (handle_account_request (some "secret") authorizedLoginEnv constVendorEnv
        "+15555551234" emptyPhonesReq).2 ∧
    (handle_account_request (some "secret") authorizedLoginEnv constVendorEnv
        "+15555551234" emptyPhonesReq).1 =
      .response 200 (.mapping [("+15555551234", "Chưa đăng ký.")]) := by
  exact ⟨by decide, rfl⟩

/-- C9: `login` with `is_send_code` false on an unauthorized session
returns absent and performs only the connect: no code request, no
interactive prompt, no session handle. -/
theorem login_noninteractive_unauthorized (env : LoginEnv) (phone : String)
    (hs : env.startup = .ok ()) (ha : env.authorized = false) :
    login env phone false = (.ok none, [Effect.connect]) ∧
    (∀ p, Effect.sendCode p ∉ (login env phone false).2) ∧
    Effect.promptCode ∉ (login env phone false).2 ∧
    Effect.promptPassword ∉ (login env phone false).2 := by
  have h : login env phone false = (.ok none, [Effect.connect]) := by
    simp [login, hs, ha]
  refine ⟨h, ?_, ?_, ?_⟩ <;> rw [h] <;> simp

/-- C9, witness: a concrete fresh unauthorized environment. -/
theorem login_noninteractive_unauthorized_witness :
    login freshLoginEnv "+15555550009" false = (.ok none, [Effect.connect]) :=
  (login_noninteractive_unauthorized freshLoginEnv "+15555550009" rfl rfl).1

/-- C10: an accounts request with a valid key on an unauthorized session
gets HTTP status 200 with the envelope holding only `code = 500` — no data
and no message fields — and the connected client is never disconnected. -/
theorem accounts_unauthorized_envelope (secret : Option String)
    (lenv : LoginEnv) (venv : VendorEnv) (pr : String) (req : HttpRequest)
    (a hsh p : String)
    (hk : apiKeyOk req secret = true)
    (ha : req.app_id = some a) (hh : req.api_hash = some hsh)
    (hp : req.phone_number = some p)
    (hs : lenv.startup = .ok ()) (hauth : lenv.authorized = false) :
    handle_account_request secret lenv venv pr req =
      (.response 200 (.envelope { data := none, message := none, code := 500 }),
        [Effect.connect]) ∧
    Effect.disconnect ∉ (handle_account_request secret lenv venv pr req).2 := by
  have hl : login lenv p false = (.ok none, [Effect.connect]) := by
    simp [login, hs, hauth]
  have h2 : handle_account_request secret lenv venv pr req =
      (.response 200 (.envelope { data := none, message := none, code := 500 }),
        [Effect.connect]) := by
    simp [handle_account_request, hk, ha, hh, hp, hl]
  exact ⟨h2, by rw [h2]; simp⟩

/-- C10, witness: a concrete valid request on a fresh unauthorized
environment. -/
theorem accounts_unauthorized_envelope_witness :
    handle_account_request (some "secret") freshLoginEnv constVendorEnv ""
        validReq =
      (.response 200 (.envelope { data := none, message := none, code := 500 }),
        [Effect.connect]) :=
  (accounts_unauthorized_envelope (some "secret") freshLoginEnv constVendorEnv ""
    validReq "12345" "abcd" "+15555550009" rfl rfl rfl rfl rfl rfl).1

end SupportTelegram
